import Mathlib

/-!
Shallow embedding of the Flutter SDK install task
(src/tasks/install/index.ts) and proofs about it.

The pure functions of the source (findArchitecture, findLatestRelease,
findVersionRelease) are translated directly.  The orchestrator main and
downloadAndCacheSdk call external collaborators (the task-input framework,
the HTTP client, the zip extractor, the external tar executable and the
agent tool cache); one run is therefore modelled as a function of an
environment Env that fixes the collaborators' behavior for that run, and
the calls made to the collaborators are recorded in an event trace.
-/

namespace Install

/-- One installable build entry of the release manifest. -/
structure ReleaseRecord where
  hash : String
  version : String
  channel : String
  archive : String
deriving Repr, DecidableEq

/-- The per-architecture release manifest fetched by getReleaseData.
The JavaScript object releaseData.current_release is modelled as an
association list from channel to hash. -/
structure ReleaseManifest where
  current_release : List (String × String)
  releases : List ReleaseRecord
  base_url : String
deriving Repr, DecidableEq

/-- JavaScript property access releaseData.current_release[channel]:
the value when the key is present, absent (undefined) otherwise. -/
def lookupChannel (currentRelease : List (String × String)) (channel : String) :
    Option String :=
  (currentRelease.find? (fun p => p.1 == channel)).map Prod.snd

def FLUTTER_TOOL_NAME : String := "Flutter"

def FLUTTER_EXE_RELATIVEPATH : String := "flutter/bin"

def FLUTTER_TOOL_PATH_ENV_VAR : String := "FlutterToolPath"

/-- findArchitecture from index.ts (lines 47-53): pure function of the
host platform identifier returned by os.platform(). -/
def findArchitecture (platform : String) : String :=
  if platform == "darwin" then "macos"
  else if platform == "linux" then "linux"
  else "windows"

/-- findLatestRelease from index.ts (lines 85-90).  In JavaScript,
currentHash is undefined when the channel key is absent, and strict
equality of a string hash with undefined is false; the comparison is
modelled as equality of Option values. -/
def findLatestRelease (releaseData : ReleaseManifest) (channel : String) :
    Option ReleaseRecord :=
  let currentHash := lookupChannel releaseData.current_release channel
  releaseData.releases.find? (fun item => some item.hash == currentHash)

/-- findVersionRelease from index.ts (lines 92-100). -/
def findVersionRelease (releaseData : ReleaseManifest) (channel : String)
    (version : String) : Option ReleaseRecord :=
  releaseData.releases.find?
    (fun item => item.version == version && item.channel == channel)

/-- Release selection step of main (index.ts lines 22-25). -/
def selectRelease (releaseData : ReleaseManifest) (channel version : String) :
    Option ReleaseRecord :=
  if version == "latest" then findLatestRelease releaseData channel
  else findVersionRelease releaseData channel version

/-- Cache key (tool name, version, architecture) of the agent tool cache. -/
structure CacheKey where
  name : String
  version : String
  arch : String
deriving Repr, DecidableEq

/-- The local tool cache, an association of keys to cached directories. -/
abbrev Cache := List (CacheKey × String)

/-- Modelled from the spec: tool.findLocalTool of the external tool cache
(spec 4.4); lookup is a pure function of the key triple. -/
def findLocalTool (cache : Cache) (name version arch : String) : Option String :=
  (cache.find? (fun e => e.1 == CacheKey.mk name version arch)).map Prod.snd

/-- Failure modes of a run, following the spec section 7 taxonomy.
selectionError is the failure the source realizes as a null dereference
of the absent release record (reading releaseInfo.archive);
cacheInconsistencyError is the failure the source realizes as
path.join applied to a null toolPath after the post-store re-lookup. -/
inductive RunError
  | inputError
  | networkError (msg : String)
  | parseError (msg : String)
  | selectionError
  | extractError (msg : String)
  | cacheInconsistencyError
deriving Repr, DecidableEq

/-- Terminal result reported through task.setResult. -/
inductive TaskResult
  | succeeded (msg : String)
  | failed (error : RunError)
deriving Repr, DecidableEq

/-- Observable calls made to the external collaborators, in order. -/
inductive Event
  | download (url : String)
  | extractZip (file : String)
  | mkdirP (dir : String)
  | tarExec (args : List String)
  | cacheLookup (key : CacheKey)
  | cacheStore (key : CacheKey) (sourceDir : String)
deriving Repr, DecidableEq

/-- Modelled from the spec: the ambient inputs and the behavior of the
external collaborators for one run.  manifestOutcome is what
getReleaseData yields (manifest, or a network/parse failure);
downloadOutcome is what tool.downloadTool yields (a local file path, or
a download failure); zipExtractOutcome is what tool.extractZip yields;
tarExitCode is the exit code of the external tar executable; nextUuid is
the fresh identifier produced by uuidv4(); storeTakesEffect models
whether the external cache store registers the entry so that the
immediate re-lookup sees it (spec 4.4 asserts it must; a false value
realizes the condition the spec names CacheInconsistencyError). -/
structure Env where
  platform : String
  manifestOutcome : Except RunError ReleaseManifest
  channel : Option String
  version : Option String
  cache : Cache
  agentTempDirectory : String
  nextUuid : String
  downloadOutcome : Except RunError String
  zipExtractOutcome : Except RunError String
  tarExitCode : Nat
  storeTakesEffect : Bool

/-- Model of path.join with two segments. -/
def pathJoin (a b : String) : String := a ++ "/" ++ b

/-- Modelled from the spec: the directory the external tool cache
registers for a key (spec 4.4, cacheRoot/name/version/arch). -/
def cachedToolPath (name version arch : String) : String :=
  pathJoin (pathJoin (pathJoin "cacheRoot" name) version) arch

/-- Model of JavaScript String.prototype.endsWith, used by the archive
dispatch at index.ts line 63: true exactly when the character sequence
of suffix is a suffix of the character sequence of s. -/
def strEndsWith (s suffix : String) : Bool :=
  suffix.data.isSuffixOf s.data

/-- Modelled from the spec: tool.cacheDir of the external tool cache
(spec 4.4).  When the store takes effect the entry becomes visible to
subsequent lookups; otherwise the cache is unchanged. -/
def cacheDir (env : Env) (cache : Cache) (sourceDir name version arch : String) :
    Cache :=
  if env.storeTakesEffect then
    (CacheKey.mk name version arch, cachedToolPath name version arch) :: cache
  else cache

/-- Modelled from the spec: running the external tar executable; a
nonzero exit code is an extraction failure. -/
def tarTool (env : Env) (args : List String) : Except RunError Unit :=
  if env.tarExitCode == 0 then Except.ok ()
  else Except.error (RunError.extractError "tar exited nonzero")

/-- The helper _createExtractFolder from index.ts (lines 115-124): with no
destination given, a fresh directory named by a new uuid under the
agent temp root is created. -/
def _createExtractFolder (env : Env) (dest : Option String) : String × List Event :=
  match dest with
  | some d => (d, [Event.mkdirP d])
  | none =>
      let d := pathJoin env.agentTempDirectory env.nextUuid
      (d, [Event.mkdirP d])

/-- extractTarXZ from index.ts (lines 102-113): creates the extraction
folder and invokes the external tar executable on it. -/
def extractTarXZ (env : Env) (file : String) : List Event × Except RunError String :=
  let destEvents := _createExtractFolder env none
  let dest := destEvents.1
  let args := ["-xJC", dest, "-f", file]
  match tarTool env args with
  | Except.ok _ => (destEvents.2 ++ [Event.tarExec args], Except.ok dest)
  | Except.error e => (destEvents.2 ++ [Event.tarExec args], Except.error e)

/-- downloadAndCacheSdk from index.ts (lines 55-76): download, extract by
dispatch on the url extension, then store into the tool cache.  Returns
the trace of collaborator calls and either the updated cache or the
propagated error.  The channel parameter is accepted but never used,
exactly as in the source. -/
def downloadAndCacheSdk (env : Env) (downloadUrl versionSpec channel arch : String) :
    List Event × Except RunError Cache :=
  match env.downloadOutcome with
  | Except.error e => ([Event.download downloadUrl], Except.error e)
  | Except.ok bundleZip =>
      let extracted : List Event × Except RunError String :=
        if strEndsWith downloadUrl ".zip" then
          ([Event.extractZip bundleZip], env.zipExtractOutcome)
        else
          extractTarXZ env bundleZip
      match extracted.2 with
      | Except.error e => (Event.download downloadUrl :: extracted.1, Except.error e)
      | Except.ok bundleDir =>
          (Event.download downloadUrl :: extracted.1 ++
             [Event.cacheStore (CacheKey.mk FLUTTER_TOOL_NAME versionSpec arch) bundleDir],
           Except.ok (cacheDir env env.cache bundleDir FLUTTER_TOOL_NAME versionSpec arch))

/-- Observable outcome of one run of the task: the reported result, the
published FlutterToolPath variable (if any), the collaborator call
trace and the final cache state. -/
structure RunOutcome where
  result : TaskResult
  flutterToolPath : Option String
  events : List Event
  finalCache : Cache
deriving Repr, DecidableEq

/-- main from index.ts (lines 12-45) together with the top-level
main().catch handler (lines 126-128): a failure at any step
short-circuits into TaskResult.failed with the originating error, and
FlutterToolPath is set only on the success path. -/
def main (env : Env) : RunOutcome :=
  match env.manifestOutcome with
  | Except.error e => RunOutcome.mk (TaskResult.failed e) none [] env.cache
  | Except.ok releaseData =>
      match env.channel with
      | none => RunOutcome.mk (TaskResult.failed RunError.inputError) none [] env.cache
      | some channel =>
          match env.version with
          | none => RunOutcome.mk (TaskResult.failed RunError.inputError) none [] env.cache
          | some version =>
              let arch := findArchitecture env.platform
              match selectRelease releaseData channel version with
              | none =>
                  RunOutcome.mk (TaskResult.failed RunError.selectionError) none [] env.cache
              | some releaseInfo =>
                  let key := CacheKey.mk FLUTTER_TOOL_NAME releaseInfo.version arch
                  match findLocalTool env.cache FLUTTER_TOOL_NAME releaseInfo.version arch with
                  | some toolPath =>
                      RunOutcome.mk (TaskResult.succeeded "Installed")
                        (some (pathJoin toolPath FLUTTER_EXE_RELATIVEPATH))
                        [Event.cacheLookup key] env.cache
                  | none =>
                      let dl := downloadAndCacheSdk env
                        (releaseData.base_url ++ "/" ++ releaseInfo.archive)
                        releaseInfo.version channel arch
                      match dl.2 with
                      | Except.error e =>
                          RunOutcome.mk (TaskResult.failed e) none
                            (Event.cacheLookup key :: dl.1) env.cache
                      | Except.ok cache2 =>
                          match findLocalTool cache2 FLUTTER_TOOL_NAME releaseInfo.version arch with
                          | none =>
                              RunOutcome.mk (TaskResult.failed RunError.cacheInconsistencyError)
                                none
                                (Event.cacheLookup key :: dl.1 ++ [Event.cacheLookup key])
                                cache2
                          | some toolPath =>
                              RunOutcome.mk (TaskResult.succeeded "Installed")
                                (some (pathJoin toolPath FLUTTER_EXE_RELATIVEPATH))
                                (Event.cacheLookup key :: dl.1 ++ [Event.cacheLookup key])
                                cache2

/-- Spec-shaped selector, written from the spec's words for Contract A
(section 4.3): look up the channel's hash in current_release, then take
the first release whose hash equals it; absent channel gives absent. -/
def selectLatest_spec (manifest : ReleaseManifest) (channel : String) :
    Option ReleaseRecord :=
  match lookupChannel manifest.current_release channel with
  | none => none
  | some h => manifest.releases.find? (fun r => r.hash == h)

/-- Recognizer for download events of the trace. -/
def isDownload : Event → Bool
  | Event.download _ => true
  | _ => false

/-- Recognizer for cache store events of the trace. -/
def isStore : Event → Bool
  | Event.cacheStore _ _ => true
  | _ => false

/-- The cache key an event carries, when it is a cache operation. -/
def keyOfEvent : Event → Option CacheKey
  | Event.cacheLookup k => some k
  | Event.cacheStore k _ => some k
  | _ => none

/-- A small concrete release record used by the witnesses. -/
def rec0 : ReleaseRecord := ReleaseRecord.mk "h1" "1.2.3" "stable" "archive.zip"

/-- A second concrete release record, on the beta channel, with a tar
archive. -/
def recBeta : ReleaseRecord := ReleaseRecord.mk "h2" "1.2.0" "beta" "beta.tar.xz"

/-- A small concrete manifest used by the witnesses. -/
def manifest0 : ReleaseManifest :=
  ReleaseManifest.mk [("stable", "h1")] [rec0, recBeta] "https://base"

/-- A concrete environment used by the witnesses: empty cache, all
collaborators succeed. -/
def env0 : Env :=
  Env.mk "linux" (Except.ok manifest0) (some "stable") (some "latest") []
    "/tmp" "uuid-1234" (Except.ok "/tmp/dl") (Except.ok "/tmp/unzipped") 0 true

/-- Variant of env0 whose cache already holds the resolved version. -/
def envHit : Env :=
  { env0 with cache := [(CacheKey.mk FLUTTER_TOOL_NAME "1.2.3" "linux", "/cached")] }

/-- Variant of env0 whose external cache store silently fails to
register the entry. -/
def envNoStore : Env := { env0 with storeTakesEffect := false }

/-- Variant of env0 requesting a channel and version no release matches. -/
def envNoMatch : Env := { env0 with channel := some "beta", version := some "9.9.9" }

/-- C6: findArchitecture is a total function into the three architecture
keys: darwin maps to macos, linux to linux, and every other platform
identifier to windows, with no error path. -/
theorem C6_findArchitecture_total (p : String) :
    findArchitecture "darwin" = "macos" ∧
    findArchitecture "linux" = "linux" ∧
    (p ≠ "darwin" → p ≠ "linux" → findArchitecture p = "windows") ∧
    (findArchitecture p = "macos" ∨ findArchitecture p = "linux" ∨
      findArchitecture p = "windows") := by
  refine ⟨rfl, rfl, ?_, ?_⟩
  · intro h1 h2
    simp [findArchitecture, h1, h2]
  · by_cases h1 : p = "darwin"
    · subst h1; left; rfl
    · by_cases h2 : p = "linux"
      · subst h2; right; left; rfl
      · right; right; simp [findArchitecture, h1, h2]

/-- Witness for C6 at the unrecognized platform identifier plan9. -/
theorem C6_witness :
    ("plan9" : String) ≠ "darwin" ∧ ("plan9" : String) ≠ "linux" ∧
    findArchitecture "plan9" = "windows" :=
  ⟨by decide, by decide,
    (C6_findArchitecture_total "plan9").2.2.1 (by decide) (by decide)⟩

/-- C3: findLatestRelease agrees with the spec-shaped selector (look up
the channel hash in current_release, return the first release whose hash
equals it); an absent channel key yields the absent result, and any
returned record is a member of the manifest whose hash is exactly the
channel's current hash. -/
theorem C3_findLatestRelease_correct (m : ReleaseManifest) (c : String) :
    findLatestRelease m c = selectLatest_spec m c ∧
    (lookupChannel m.current_release c = none → findLatestRelease m c = none) ∧
    (∀ r, findLatestRelease m c = some r →
      r ∈ m.releases ∧ some r.hash = lookupChannel m.current_release c) := by
  have hmain : findLatestRelease m c = selectLatest_spec m c := by
    simp only [findLatestRelease, selectLatest_spec]
    cases h : lookupChannel m.current_release c with
    | none =>
        rw [List.find?_eq_none]
        intro x _
        intro hx
        exact Bool.noConfusion hx
    | some hh => rfl
  refine ⟨hmain, ?_, ?_⟩
  · intro h0
    rw [hmain]
    simp only [selectLatest_spec, h0]
  · intro r hr
    simp only [findLatestRelease] at hr
    refine ⟨List.mem_of_find?_eq_some hr, ?_⟩
    have hp := List.find?_some hr
    cases h : lookupChannel m.current_release c with
    | none =>
        rw [h] at hp
        exact Bool.noConfusion hp
    | some hh =>
        rw [h] at hp
        have : r.hash = hh := by
          have : (r.hash == hh) = true := hp
          exact eq_of_beq this
        rw [this]

/-- Witness for C3 at the concrete manifest: the latest stable release is
the record rec0. -/
theorem C3_witness :
    findLatestRelease manifest0 "stable" = selectLatest_spec manifest0 "stable" ∧
    findLatestRelease manifest0 "stable" = some rec0 :=
  ⟨(C3_findLatestRelease_correct manifest0 "stable").1, rfl⟩

/-- C4: findVersionRelease returns the absent result exactly when no
release matches both the version and the channel, and any returned
record matches both fields and is the first such record in manifest
order. -/
theorem C4_findVersionRelease_correct (m : ReleaseManifest) (c v : String) :
    (findVersionRelease m c v = none ↔
      ∀ r ∈ m.releases, ¬(r.version = v ∧ r.channel = c)) ∧
    (∀ r, findVersionRelease m c v = some r →
      r.version = v ∧ r.channel = c ∧
      ∃ pre post, m.releases = pre ++ r :: post ∧
        ∀ x ∈ pre, ¬(x.version = v ∧ x.channel = c)) := by
  constructor
  · simp [findVersionRelease, List.find?_eq_none]
  · intro r hr
    simp only [findVersionRelease] at hr
    obtain ⟨hp, pre, post, heq, hpre⟩ := List.find?_eq_some.mp hr
    have hv : r.version = v ∧ r.channel = c := by
      simpa using hp
    refine ⟨hv.1, hv.2, pre, post, heq, ?_⟩
    intro x hx hcon
    have := hpre x hx
    simp [hcon.1, hcon.2] at this

/-- Witness for C4: no release of the concrete manifest matches channel
beta at version 9.9.9. -/
theorem C4_witness :
    findVersionRelease manifest0 "beta" "9.9.9" = none :=
  (C4_findVersionRelease_correct manifest0 "beta" "9.9.9").1.mpr (by decide)

/-- The trace of downloadAndCacheSdk contains at most one download call
and at most one cache store call. -/
theorem downloadAndCacheSdk_counts (env : Env) (url v ch arch : String) :
    (downloadAndCacheSdk env url v ch arch).1.countP isDownload ≤ 1 ∧
    (downloadAndCacheSdk env url v ch arch).1.countP isStore ≤ 1 := by
  unfold downloadAndCacheSdk
  cases env.downloadOutcome with
  | error e => simp [isDownload, isStore]
  | ok bz =>
      by_cases hz : strEndsWith url ".zip" = true
      · simp only [hz, if_true]
        cases env.zipExtractOutcome with
        | error e => simp [isDownload, isStore]
        | ok d => simp [isDownload, isStore]
      · simp only [hz, Bool.false_eq_true, if_false]
        unfold extractTarXZ _createExtractFolder tarTool
        by_cases ht : (env.tarExitCode == 0) = true
        · simp only [ht, if_true]
          simp [isDownload, isStore]
        · simp only [ht, Bool.false_eq_true, if_false]
          simp [isDownload, isStore]

/-- Every cache operation recorded by downloadAndCacheSdk carries the key
(Flutter, versionSpec, arch). -/
theorem downloadAndCacheSdk_keys (env : Env) (url v ch arch : String) :
    ∀ e ∈ (downloadAndCacheSdk env url v ch arch).1, ∀ k, keyOfEvent e = some k →
      k = CacheKey.mk FLUTTER_TOOL_NAME v arch := by
  unfold downloadAndCacheSdk
  cases env.downloadOutcome with
  | error e => simp [keyOfEvent]
  | ok bz =>
      by_cases hz : strEndsWith url ".zip" = true
      · simp only [hz, if_true]
        cases env.zipExtractOutcome with
        | error e => simp [keyOfEvent]
        | ok d =>
            intro e he k hk
            simp only [List.cons_append, List.nil_append, List.mem_cons,
              List.mem_singleton, List.not_mem_nil, or_false] at he
            rcases he with rfl | rfl | rfl
            · exact absurd hk (by simp [keyOfEvent])
            · exact absurd hk (by simp [keyOfEvent])
            · simp only [keyOfEvent, Option.some.injEq] at hk
              exact hk.symm
      · simp only [hz, Bool.false_eq_true, if_false]
        unfold extractTarXZ _createExtractFolder tarTool
        by_cases ht : (env.tarExitCode == 0) = true
        · simp only [ht, if_true]
          intro e he k hk
          simp only [List.cons_append, List.nil_append, List.mem_cons,
            List.mem_singleton, List.not_mem_nil, or_false] at he
          rcases he with rfl | rfl | rfl | rfl
          · exact absurd hk (by simp [keyOfEvent])
          · exact absurd hk (by simp [keyOfEvent])
          · exact absurd hk (by simp [keyOfEvent])
          · simp only [keyOfEvent, Option.some.injEq] at hk
            exact hk.symm
        · simp only [ht, Bool.false_eq_true, if_false]
          intro e he k hk
          simp only [List.cons_append, List.nil_append, List.mem_cons,
            List.mem_singleton, List.not_mem_nil, or_false] at he
          rcases he with rfl | rfl | rfl
          · exact absurd hk (by simp [keyOfEvent])
          · exact absurd hk (by simp [keyOfEvent])
          · exact absurd hk (by simp [keyOfEvent])

/-- When downloadAndCacheSdk returns an updated cache, that cache is the
input cache with the entry for (Flutter, versionSpec, arch) prepended if
the external store took effect, and the unchanged input cache otherwise. -/
theorem downloadAndCacheSdk_ok_cache (env : Env) (url v ch arch : String)
    (c2 : Cache)
    (h : (downloadAndCacheSdk env url v ch arch).2 = Except.ok c2) :
    (env.storeTakesEffect = true →
      c2 = (CacheKey.mk FLUTTER_TOOL_NAME v arch,
             cachedToolPath FLUTTER_TOOL_NAME v arch) :: env.cache) ∧
    (env.storeTakesEffect = false → c2 = env.cache) := by
  unfold downloadAndCacheSdk at h
  cases hdo : env.downloadOutcome with
  | error e => rw [hdo] at h; exact absurd h (by simp)
  | ok bz =>
      rw [hdo] at h
      by_cases hz : strEndsWith url ".zip" = true
      · simp only [hz, if_true] at h
        cases hzo : env.zipExtractOutcome with
        | error e => rw [hzo] at h; exact absurd h (by simp)
        | ok d =>
            rw [hzo] at h
            simp only [Except.ok.injEq] at h
            unfold cacheDir at h
            constructor
            · intro hst; rw [hst] at h; simpa using h.symm
            · intro hst; rw [hst] at h; simpa using h.symm
      · simp only [hz, Bool.false_eq_true, if_false] at h
        unfold extractTarXZ _createExtractFolder tarTool at h
        by_cases ht : (env.tarExitCode == 0) = true
        · simp only [ht, if_true] at h
          simp only [Except.ok.injEq] at h
          unfold cacheDir at h
          constructor
          · intro hst; rw [hst] at h; simpa using h.symm
          · intro hst; rw [hst] at h; simpa using h.symm
        · simp only [ht, Bool.false_eq_true, if_false] at h
          exact absurd h (by simp)

/-- Lookup of a key that was just stored at the head of the cache finds
the stored path. -/
theorem findLocalTool_cons_self (c : Cache) (n v a p : String) :
    findLocalTool ((CacheKey.mk n v a, p) :: c) n v a = some p := by
  simp [findLocalTool]

/-- C2: whenever release selection finds no matching record, the run
fails with the selection error (realized in the source as the null
dereference of the absent record) and FlutterToolPath is never set. -/
theorem C2_no_match_fails (env : Env) (m : ReleaseManifest) (ch v : String)
    (hm : env.manifestOutcome = Except.ok m)
    (hch : env.channel = some ch) (hv : env.version = some v)
    (hsel : selectRelease m ch v = none) :
    (main env).result = TaskResult.failed RunError.selectionError ∧
    (main env).flutterToolPath = none := by
  simp [main, hm, hch, hv, hsel]

/-- Witness for C2: requesting channel beta at version 9.9.9 against the
concrete manifest fails with the selection error and publishes nothing. -/
theorem C2_witness :
    selectRelease manifest0 "beta" "9.9.9" = none ∧
    (main envNoMatch).result = TaskResult.failed RunError.selectionError ∧
    (main envNoMatch).flutterToolPath = none :=
  ⟨rfl,
   (C2_no_match_fails envNoMatch manifest0 "beta" "9.9.9" rfl rfl rfl rfl).1,
   (C2_no_match_fails envNoMatch manifest0 "beta" "9.9.9" rfl rfl rfl rfl).2⟩

/-- C5: when the download succeeds, a url ending in .zip is extracted via
the zip path (no tar invocation, no temp folder creation), and any other
url is extracted by invoking the external tar executable on a fresh
directory named by the new uuid under the agent temp root (no zip
extraction). -/
theorem C5_archive_dispatch (env : Env) (url v ch arch bz : String)
    (hdl : env.downloadOutcome = Except.ok bz) :
    (strEndsWith url ".zip" = true →
      Event.extractZip bz ∈ (downloadAndCacheSdk env url v ch arch).1 ∧
      (∀ a, Event.tarExec a ∉ (downloadAndCacheSdk env url v ch arch).1) ∧
      (∀ d, Event.mkdirP d ∉ (downloadAndCacheSdk env url v ch arch).1)) ∧
    (strEndsWith url ".zip" = false →
      Event.mkdirP (pathJoin env.agentTempDirectory env.nextUuid) ∈
        (downloadAndCacheSdk env url v ch arch).1 ∧
      Event.tarExec ["-xJC", pathJoin env.agentTempDirectory env.nextUuid, "-f", bz] ∈
        (downloadAndCacheSdk env url v ch arch).1 ∧
      (∀ f, Event.extractZip f ∉ (downloadAndCacheSdk env url v ch arch).1)) := by
  unfold downloadAndCacheSdk
  rw [hdl]
  constructor
  · intro hz
    simp only [hz, if_true]
    cases env.zipExtractOutcome with
    | error e => simp
    | ok d => simp
  · intro hz
    simp only [hz, Bool.false_eq_true, if_false]
    unfold extractTarXZ _createExtractFolder tarTool
    by_cases ht : (env.tarExitCode == 0) = true
    · simp only [ht, if_true]
      simp
    · simp only [ht, Bool.false_eq_true, if_false]
      simp

/-- Witness for C5 at concrete urls: the zip url records a zip
extraction, the tar.xz url records a tar invocation on the fresh temp
directory. -/
theorem C5_witness :
    env0.downloadOutcome = Except.ok "/tmp/dl" ∧
    Event.extractZip "/tmp/dl" ∈
      (downloadAndCacheSdk env0 "https://base/archive.zip" "1.2.3" "stable" "linux").1 ∧
    Event.tarExec ["-xJC", pathJoin "/tmp" "uuid-1234", "-f", "/tmp/dl"] ∈
      (downloadAndCacheSdk env0 "https://base/beta.tar.xz" "1.2.0" "beta" "linux").1 :=
  ⟨rfl,
   ((C5_archive_dispatch env0 "https://base/archive.zip" "1.2.3" "stable" "linux"
      "/tmp/dl" rfl).1 (by decide)).1,
   (((C5_archive_dispatch env0 "https://base/beta.tar.xz" "1.2.0" "beta" "linux"
      "/tmp/dl" rfl).2 (by decide)).2).1⟩

/-- C10: the channel parameter of downloadAndCacheSdk has no effect on
its behavior, and every store it performs uses the key
(Flutter, versionSpec, arch), so two releases agreeing on version and
architecture share one cache entry regardless of channel. -/
theorem C10_channel_unused (env : Env) (url v ch ch2 arch : String) :
    downloadAndCacheSdk env url v ch arch = downloadAndCacheSdk env url v ch2 arch ∧
    (∀ k d, Event.cacheStore k d ∈ (downloadAndCacheSdk env url v ch arch).1 →
      k = CacheKey.mk FLUTTER_TOOL_NAME v arch) := by
  refine ⟨rfl, ?_⟩
  intro k d hmem
  exact downloadAndCacheSdk_keys env url v ch arch _ hmem k rfl

/-- Witness for C10: swapping the channel between stable and beta leaves
the whole call unchanged at a concrete input. -/
theorem C10_witness :
    downloadAndCacheSdk env0 "https://base/archive.zip" "1.2.3" "stable" "linux" =
    downloadAndCacheSdk env0 "https://base/archive.zip" "1.2.3" "beta" "linux" :=
  (C10_channel_unused env0 "https://base/archive.zip" "1.2.3" "stable" "beta" "linux").1

/-- C1: every run either publishes FlutterToolPath and reports success,
or reports failure carrying the originating error and publishes nothing;
no collaborator call is retried: at most one download and at most one
cache store occur in any run. -/
theorem C1_run_dichotomy (env : Env) :
    (((main env).result = TaskResult.succeeded "Installed" ∧
        ((main env).flutterToolPath).isSome = true) ∨
      ((∃ e, (main env).result = TaskResult.failed e) ∧
        (main env).flutterToolPath = none)) ∧
    (main env).events.countP isDownload ≤ 1 ∧
    (main env).events.countP isStore ≤ 1 := by
  cases hm : env.manifestOutcome with
  | error e => simp [main, hm]
  | ok m =>
    cases hch : env.channel with
    | none => simp [main, hm, hch]
    | some ch =>
      cases hv : env.version with
      | none => simp [main, hm, hch, hv]
      | some v =>
        cases hsel : selectRelease m ch v with
        | none => simp [main, hm, hch, hv, hsel]
        | some r =>
          cases hloc : findLocalTool env.cache FLUTTER_TOOL_NAME r.version
              (findArchitecture env.platform) with
          | some tp => simp [main, hm, hch, hv, hsel, hloc, isDownload, isStore]
          | none =>
            have hc := downloadAndCacheSdk_counts env
              (m.base_url ++ "/" ++ r.archive) r.version ch
              (findArchitecture env.platform)
            cases hdl : (downloadAndCacheSdk env (m.base_url ++ "/" ++ r.archive)
                r.version ch (findArchitecture env.platform)).2 with
            | error e =>
                refine ⟨?_, ?_, ?_⟩
                · simp [main, hm, hch, hv, hsel, hloc, hdl]
                · simp only [main, hm, hch, hv, hsel, hloc, hdl,
                    List.countP_cons]
                  simp [isDownload]
                  omega
                · simp only [main, hm, hch, hv, hsel, hloc, hdl,
                    List.countP_cons]
                  simp [isStore]
                  omega
            | ok c2 =>
              cases h2 : findLocalTool c2 FLUTTER_TOOL_NAME r.version
                  (findArchitecture env.platform) with
              | none =>
                  refine ⟨?_, ?_, ?_⟩
                  · simp [main, hm, hch, hv, hsel, hloc, hdl, h2]
                  · simp only [main, hm, hch, hv, hsel, hloc, hdl, h2,
                      List.countP_cons, List.countP_append]
                    simp [isDownload]
                    omega
                  · simp only [main, hm, hch, hv, hsel, hloc, hdl, h2,
                      List.countP_cons, List.countP_append]
                    simp [isStore]
                    omega
              | some tp =>
                  refine ⟨?_, ?_, ?_⟩
                  · simp [main, hm, hch, hv, hsel, hloc, hdl, h2]
                  · simp only [main, hm, hch, hv, hsel, hloc, hdl, h2,
                      List.countP_cons, List.countP_append]
                    simp [isDownload]
                    omega
                  · simp only [main, hm, hch, hv, hsel, hloc, hdl, h2,
                      List.countP_cons, List.countP_append]
                    simp [isStore]
                    omega

/-- Witness for C1 at the concrete environment env0. -/
theorem C1_witness :
    (((main env0).result = TaskResult.succeeded "Installed" ∧
        ((main env0).flutterToolPath).isSome = true) ∨
      ((∃ e, (main env0).result = TaskResult.failed e) ∧
        (main env0).flutterToolPath = none)) ∧
    (main env0).events.countP isDownload ≤ 1 ∧
    (main env0).events.countP isStore ≤ 1 :=
  C1_run_dichotomy env0

/-- C7: when the initial cache lookup for the resolved release hits, the
run performs no download, no extraction and no store; the published path
is the cached path joined with flutter/bin and the cache is unchanged. -/
theorem C7_cache_hit_no_download (env : Env) (m : ReleaseManifest)
    (ch v tp : String) (r : ReleaseRecord)
    (hm : env.manifestOutcome = Except.ok m)
    (hch : env.channel = some ch) (hv : env.version = some v)
    (hsel : selectRelease m ch v = some r)
    (hhit : findLocalTool env.cache FLUTTER_TOOL_NAME r.version
      (findArchitecture env.platform) = some tp) :
    (main env).result = TaskResult.succeeded "Installed" ∧
    (main env).flutterToolPath = some (pathJoin tp FLUTTER_EXE_RELATIVEPATH) ∧
    (main env).events =
      [Event.cacheLookup (CacheKey.mk FLUTTER_TOOL_NAME r.version
        (findArchitecture env.platform))] ∧
    (∀ u, Event.download u ∉ (main env).events) ∧
    (∀ f, Event.extractZip f ∉ (main env).events) ∧
    (∀ a, Event.tarExec a ∉ (main env).events) ∧
    (∀ k d, Event.cacheStore k d ∉ (main env).events) ∧
    (main env).finalCache = env.cache := by
  refine ⟨?_, ?_, ?_, ?_, ?_, ?_, ?_, ?_⟩ <;>
    simp [main, hm, hch, hv, hsel, hhit]

/-- Witness for C7: with the cache pre-populated, the run succeeds and
publishes the cached path joined with flutter/bin. -/
theorem C7_witness :
    selectRelease manifest0 "stable" "latest" = some rec0 ∧
    (main envHit).result = TaskResult.succeeded "Installed" ∧
    (main envHit).flutterToolPath = some (pathJoin "/cached" FLUTTER_EXE_RELATIVEPATH) :=
  ⟨rfl,
   (C7_cache_hit_no_download envHit manifest0 "stable" "latest" "/cached" rec0
      rfl rfl rfl rfl rfl).1,
   (C7_cache_hit_no_download envHit manifest0 "stable" "latest" "/cached" rec0
      rfl rfl rfl rfl rfl).2.1⟩

/-- C8: on a cache miss where download, extraction and the store call all
succeed, if the store took effect the immediate re-lookup hits and the
run succeeds; if the entry is still missing the run terminates failed
with the cache inconsistency error, not silently retried. -/
theorem C8_store_then_relookup (env : Env) (m : ReleaseManifest) (ch v : String)
    (r : ReleaseRecord) (c2 : Cache)
    (hm : env.manifestOutcome = Except.ok m)
    (hch : env.channel = some ch) (hv : env.version = some v)
    (hsel : selectRelease m ch v = some r)
    (hmiss : findLocalTool env.cache FLUTTER_TOOL_NAME r.version
      (findArchitecture env.platform) = none)
    (hdl : (downloadAndCacheSdk env (m.base_url ++ "/" ++ r.archive) r.version ch
      (findArchitecture env.platform)).2 = Except.ok c2) :
    (env.storeTakesEffect = true →
      findLocalTool c2 FLUTTER_TOOL_NAME r.version (findArchitecture env.platform) =
        some (cachedToolPath FLUTTER_TOOL_NAME r.version (findArchitecture env.platform)) ∧
      (main env).result = TaskResult.succeeded "Installed") ∧
    (env.storeTakesEffect = false →
      (main env).result = TaskResult.failed RunError.cacheInconsistencyError ∧
      (main env).flutterToolPath = none) := by
  have hc := downloadAndCacheSdk_ok_cache env (m.base_url ++ "/" ++ r.archive)
    r.version ch (findArchitecture env.platform) c2 hdl
  constructor
  · intro hst
    have hc2 := hc.1 hst
    have hfind : findLocalTool c2 FLUTTER_TOOL_NAME r.version
        (findArchitecture env.platform) =
        some (cachedToolPath FLUTTER_TOOL_NAME r.version
          (findArchitecture env.platform)) := by
      rw [hc2]
      exact findLocalTool_cons_self env.cache FLUTTER_TOOL_NAME r.version
        (findArchitecture env.platform) _
    refine ⟨hfind, ?_⟩
    simp [main, hm, hch, hv, hsel, hmiss, hdl, hfind]
  · intro hst
    have hc2 := hc.2 hst
    have hfind : findLocalTool c2 FLUTTER_TOOL_NAME r.version
        (findArchitecture env.platform) = none := by
      rw [hc2]; exact hmiss
    constructor
    · simp [main, hm, hch, hv, hsel, hmiss, hdl, hfind]
    · simp [main, hm, hch, hv, hsel, hmiss, hdl, hfind]

/-- Witness for C8: with a working store the concrete miss run succeeds;
with a store that silently fails to register, the same run fails with
the cache inconsistency error. -/
theorem C8_witness :
    (main env0).result = TaskResult.succeeded "Installed" ∧
    (main envNoStore).result = TaskResult.failed RunError.cacheInconsistencyError :=
  ⟨((C8_store_then_relookup env0 manifest0 "stable" "latest" rec0
      [(CacheKey.mk FLUTTER_TOOL_NAME "1.2.3" "linux",
        cachedToolPath FLUTTER_TOOL_NAME "1.2.3" "linux")]
      rfl rfl rfl rfl rfl rfl).1 rfl).2,
   ((C8_store_then_relookup envNoStore manifest0 "stable" "latest" rec0 []
      rfl rfl rfl rfl rfl rfl).2 rfl).1⟩

/-- C9: in a run requested at the literal version latest that resolves to
a release record, every cache lookup and every cache store uses the
resolved record's version field as the key's version, with the tool name
Flutter; in particular it is never the literal latest when the resolved
version differs from it. -/
theorem C9_latest_uses_resolved_version (env : Env) (m : ReleaseManifest)
    (ch : String) (r : ReleaseRecord)
    (hm : env.manifestOutcome = Except.ok m)
    (hch : env.channel = some ch) (hv : env.version = some "latest")
    (hsel : findLatestRelease m ch = some r) :
    ∀ e ∈ (main env).events, ∀ k, keyOfEvent e = some k →
      k.version = r.version ∧ k.name = FLUTTER_TOOL_NAME ∧
      (r.version ≠ "latest" → k.version ≠ "latest") := by
  have hsel' : selectRelease m ch "latest" = some r := by
    simp [selectRelease, hsel]
  have hstep : ∀ e ∈ (main env).events, ∀ k, keyOfEvent e = some k →
      k = CacheKey.mk FLUTTER_TOOL_NAME r.version (findArchitecture env.platform) := by
    intro e he k hk
    cases hloc : findLocalTool env.cache FLUTTER_TOOL_NAME r.version
        (findArchitecture env.platform) with
    | some tp =>
        simp [main, hm, hch, hv, hsel', hloc] at he
        subst he
        simp only [keyOfEvent, Option.some.injEq] at hk
        exact hk.symm
    | none =>
        cases hdl : (downloadAndCacheSdk env (m.base_url ++ "/" ++ r.archive)
            r.version ch (findArchitecture env.platform)).2 with
        | error err =>
            simp [main, hm, hch, hv, hsel', hloc, hdl] at he
            rcases he with rfl | he2
            · simp only [keyOfEvent, Option.some.injEq] at hk
              exact hk.symm
            · exact downloadAndCacheSdk_keys env (m.base_url ++ "/" ++ r.archive)
                r.version ch (findArchitecture env.platform) e he2 k hk
        | ok c2 =>
            cases h2 : findLocalTool c2 FLUTTER_TOOL_NAME r.version
                (findArchitecture env.platform) with
            | none =>
                simp [main, hm, hch, hv, hsel', hloc, hdl, h2] at he
                rcases he with rfl | he2 | rfl
                · simp only [keyOfEvent, Option.some.injEq] at hk
                  exact hk.symm
                · exact downloadAndCacheSdk_keys env (m.base_url ++ "/" ++ r.archive)
                    r.version ch (findArchitecture env.platform) e he2 k hk
                · simp only [keyOfEvent, Option.some.injEq] at hk
                  exact hk.symm
            | some tp =>
                simp [main, hm, hch, hv, hsel', hloc, hdl, h2] at he
                rcases he with rfl | he2 | rfl
                · simp only [keyOfEvent, Option.some.injEq] at hk
                  exact hk.symm
                · exact downloadAndCacheSdk_keys env (m.base_url ++ "/" ++ r.archive)
                    r.version ch (findArchitecture env.platform) e he2 k hk
                · simp only [keyOfEvent, Option.some.injEq] at hk
                  exact hk.symm
  intro e he k hk
  have hk2 := hstep e he k hk
  subst hk2
  exact ⟨rfl, rfl, fun hne h1 => hne h1⟩

/-- Witness for C9: in the concrete latest run, the recorded cache lookup
key carries the resolved version of rec0, not the literal latest. -/
theorem C9_witness :
    findLatestRelease manifest0 "stable" = some rec0 ∧
    (CacheKey.mk FLUTTER_TOOL_NAME "1.2.3" "linux").version = rec0.version :=
  ⟨rfl,
   (C9_latest_uses_resolved_version env0 manifest0 "stable" rec0 rfl rfl rfl rfl
      (Event.cacheLookup (CacheKey.mk FLUTTER_TOOL_NAME "1.2.3" "linux"))
      (by decide)
      (CacheKey.mk FLUTTER_TOOL_NAME "1.2.3" "linux") rfl).1⟩

end Install
